import Mathlib

/-!
Shallow embedding of the LTV-monitor Cloudflare worker (source file
`src/unnamed/part_000`, environment bindings in `src/src/worker/env.d.ts`).

Modelling conventions:
* JavaScript numbers are modelled by `JSNum`: either `nan` or an exact
  rational.  The source guards `if (collateral === 0) continue` before the
  only division, so IEEE infinities (division of a nonzero value by exact
  zero) are unreachable in the monitored pipeline and are not modelled;
  the spec disclaims precision guarantees beyond ordinary floating point,
  and every ratio appearing in the claims is exactly representable.
* `parseFloat` models the JavaScript builtin on the decimal forms the
  program can meet: optional leading whitespace, optional sign, digits
  with an optional fraction part, and an optional exponent part, reading
  the longest valid prefix and returning `nan` when no digits occur.
  (The literal-word forms `Infinity`/`-Infinity` are not modelled.)
* Outbound HTTP is a caller-supplied oracle `HttpRequest → Except String
  HttpResponse`; an `Except.error` result is a JavaScript exception thrown
  by `fetch`, and the `try`/`catch` blocks of the source appear as `match`
  arms recovering from it.  Request bodies are kept structurally
  (pre-serialization): `JSON.stringify` and `URLSearchParams` encoding are
  platform builtins with no logic of their own in this repository.  The
  platform `btoa` (base64) is kept abstract as the identity tag inside the
  `Authorization` header, since no claim depends on the encoding.
* `console.log`/`warn`/`error` effects are represented by the returned
  `SendOutcome`/`PipelineLog` values (which record exactly what would be
  logged), not by an IO trace.
-/

/-- A JavaScript number as the program uses it: `NaN` or an exact rational.
(IEEE infinities are unreachable behind the source's zero-collateral guard
and are omitted; see the module comment.) -/
inductive JSNum where
  | nan : JSNum
  | num : ℚ → JSNum
deriving DecidableEq

/-- Value of a (nonempty or empty) digit list read in base 10. -/
def digitsToNat (ds : List Char) : ℕ :=
  ds.foldl (fun a c => 10 * a + (c.toNat - 48)) 0

/-- Exponent part after `e`/`E` in `parseFloat`: optional sign then digits;
an invalid exponent part contributes factor `10 ^ 0` (longest-valid-prefix
semantics of the builtin). -/
def parseExpo (cs : List Char) : ℤ :=
  let (s, r) : ℤ × List Char :=
    match cs with
    | '-' :: r => (-1, r)
    | '+' :: r => (1, r)
    | r => (1, r)
  let ds := r.takeWhile Char.isDigit
  if ds.isEmpty then 0 else s * (digitsToNat ds : ℤ)

/-- Result of lexing a decimal literal: validity flag, sign (`-1` or `1`),
integer-part digits, fraction-part digits with their count, exponent. -/
structure ParsedNum where
  ok : Bool
  sign : ℤ
  ipart : ℕ
  fpart : ℕ
  fplen : ℕ
  expo : ℤ
deriving DecidableEq

/-- Character-level part of `parseFloat` after whitespace skipping: optional
sign, integer digits, optional `.` and fraction digits, optional exponent;
`ok := false` when no digit was read. -/
def lexFloat (cs : List Char) : ParsedNum :=
  let (sign, cs1) : ℤ × List Char :=
    match cs with
    | '-' :: r => (-1, r)
    | '+' :: r => (1, r)
    | r => (1, r)
  let ip := cs1.takeWhile Char.isDigit
  let cs2 := cs1.dropWhile Char.isDigit
  let (fp, cs3) : List Char × List Char :=
    match cs2 with
    | '.' :: r => (r.takeWhile Char.isDigit, r.dropWhile Char.isDigit)
    | _ => ([], cs2)
  if ip.isEmpty && fp.isEmpty then
    { ok := false, sign := 1, ipart := 0, fpart := 0, fplen := 0, expo := 0 }
  else
    { ok := true, sign := sign, ipart := digitsToNat ip, fpart := digitsToNat fp,
      fplen := fp.length,
      expo :=
        match cs3 with
        | 'e' :: r => parseExpo r
        | 'E' :: r => parseExpo r
        | _ => 0 }

/-- Numeric value of a successfully lexed decimal literal. -/
def parsedVal (p : ParsedNum) : ℚ :=
  (p.sign : ℚ) * ((p.ipart : ℚ) + (p.fpart : ℚ) / (10 : ℚ) ^ p.fplen) * (10 : ℚ) ^ p.expo

/-- Model of the JavaScript `parseFloat` builtin (see module comment). -/
def parseFloat (s : String) : JSNum :=
  let p := lexFloat (s.data.dropWhile fun c => c = ' ' ∨ c = '\t' ∨ c = '\n' ∨ c = '\r')
  if p.ok then JSNum.num (parsedVal p) else JSNum.nan

/-- JavaScript `x === 0` on a number: `NaN === 0` is `false`. -/
def isZero : JSNum → Bool
  | JSNum.nan => false
  | JSNum.num a => decide (a = 0)

/-- JavaScript division `debt / collateral` as the source uses it.  Any `NaN`
operand gives `NaN`; the divisor-zero arm is unreachable in the pipeline
(guarded by `collateral === 0`) and is collapsed to `nan`. -/
def jdiv : JSNum → JSNum → JSNum
  | JSNum.num a, JSNum.num b => if b = 0 then JSNum.nan else JSNum.num (a / b)
  | _, _ => JSNum.nan

/-- JavaScript `x * 100` (`NaN` propagates). -/
def jmul100 : JSNum → JSNum
  | JSNum.nan => JSNum.nan
  | JSNum.num a => JSNum.num (a * 100)

/-- JavaScript `x > t`: `NaN` compares as not-greater-than anything. -/
def jgt (x : JSNum) (t : ℚ) : Bool :=
  match x with
  | JSNum.nan => false
  | JSNum.num a => decide (t < a)

/-- Integer value of `|q|` in hundredths, rounded to nearest with ties
picked upward, exactly as ECMAScript `toFixed` chooses its integer `n`
(on the magnitude, after the sign is split off). -/
def fixedTwoUnits (q : ℚ) : ℤ :=
  ⌊|q| * 100 + 1 / 2⌋

/-- Two-digit rendering of a fraction-of-hundred. -/
def twoDigits (k : ℕ) : String :=
  if k < 10 then "0" ++ toString k else toString k

/-- ECMAScript `Number.prototype.toFixed(2)` on a (finite) value. -/
def toFixed2Rat (q : ℚ) : String :=
  let units := (fixedTwoUnits q).toNat
  (if q < 0 then "-" else "") ++ toString (units / 100) ++ "." ++ twoDigits (units % 100)

/-- `toFixed(2)` on a `JSNum` (`NaN` renders as `"NaN"`). -/
def toFixedTwo : JSNum → String
  | JSNum.nan => "NaN"
  | JSNum.num q => toFixed2Rat q

/-- JavaScript `s.substring(i)` (from index `i` to the end, clamped). -/
def jsSubstringFrom (s : String) (i : ℕ) : String :=
  String.mk (s.data.drop i)

/-- JavaScript `s.substring(0, j)` (first `j` characters, clamped). -/
def jsSubstringTo (s : String) (j : ℕ) : String :=
  String.mk (s.data.take j)

/-- Source `AaveUser` record: id plus the two numeric strings. -/
structure AaveUser where
  id : String
  totalCollateralBase : String
  totalDebtBase : String
deriving DecidableEq

/-- The hard-coded mock borrower list of `checkHealthFactors`. -/
def mockUsers : List AaveUser :=
  [ { id := "0x1234567890abcdef1234567890abcdef12345678",
      totalCollateralBase := "1000000",
      totalDebtBase := "900000" },
    { id := "0xabcdef1234567890abcdef1234567890abcdef12",
      totalCollateralBase := "500000",
      totalDebtBase := "450000" } ]

/-- Per-user evaluation of the loop body of `checkHealthFactors` up to the
threshold test: `none` when the `collateral === 0` guard skips the user,
otherwise the computed LTV `(debt / collateral) * 100`. -/
def userLtv (u : AaveUser) : Option JSNum :=
  let collateral := parseFloat u.totalCollateralBase
  let debt := parseFloat u.totalDebtBase
  if isZero collateral then none
  else some (jmul100 (jdiv debt collateral))

/-- `user.id.substring(0, 6) + "..." + user.id.substring(38)` from line 67. -/
def shortAddr (id : String) : String :=
  jsSubstringTo id 6 ++ "..." ++ jsSubstringFrom id 38

/-- The alert message string built on line 68 of the source. -/
def alertMsg (u : AaveUser) (ltv : JSNum) : String :=
  "High LTV Alert! Wallet " ++ shortAddr u.id ++ " is at " ++ toFixedTwo ltv ++ "% LTV."

/-- The users the loop flags (`ltv > 85` after the zero-collateral guard),
each with its computed LTV. -/
def alertedUsers (users : List AaveUser) : List (AaveUser × JSNum) :=
  users.filterMap fun u =>
    match userLtv u with
    | none => none
    | some ltv => if jgt ltv 85 then some (u, ltv) else none

/-- The two notification channels. -/
inductive Channel where
  | telegram : Channel
  | twilioSMS : Channel
deriving DecidableEq

/-- The sends pushed onto `alertPromises`: for each flagged user, one
Telegram send and one Twilio send carrying the same message. -/
def dispatchSends (users : List AaveUser) : List (Channel × String) :=
  (alertedUsers users).flatMap fun p =>
    [(Channel.telegram, alertMsg p.1 p.2), (Channel.twilioSMS, alertMsg p.1 p.2)]

/-- The worker's environment bindings (`env.d.ts`); a secret that was never
set is the empty string, which is exactly what the source's `!!` truthiness
checks test for. -/
structure EnvBindings where
  TELEGRAM_BOT_TOKEN : String
  TELEGRAM_CHAT_ID : String
  TWILIO_ACCOUNT_SID : String
  TWILIO_AUTH_TOKEN : String
  TWILIO_MESSAGING_SERVICE_SID : String
  TWILIO_TO_NUMBER : String
deriving DecidableEq

/-- An outbound request body, kept structurally (pre-serialization): the
object handed to `JSON.stringify` for Telegram, the `URLSearchParams`
field list for Twilio. -/
inductive RequestBody where
  | jsonMessage : (chatId text parseMode : String) → RequestBody
  | form : List (String × String) → RequestBody
deriving DecidableEq

/-- An outbound HTTP request as the senders build it. -/
structure HttpRequest where
  url : String
  method : String
  headers : List (String × String)
  body : RequestBody
deriving DecidableEq

/-- A provider response: status code and response text. -/
structure HttpResponse where
  status : ℕ
  body : String
deriving DecidableEq

/-- The platform `Response.ok` property: HTTP status in the 2xx range. -/
def HttpResponse.ok (r : HttpResponse) : Bool :=
  decide (200 ≤ r.status ∧ r.status < 300)

/-- What one sender invocation did, mirroring the source's log statements:
config-missing warning, success log, non-2xx failure log carrying the
response body, or a caught transport exception. -/
inductive SendOutcome where
  | skippedConfig : SendOutcome
  | sent : SendOutcome
  | failed : String → SendOutcome
  | errored : String → SendOutcome
deriving DecidableEq

/-- The `fetch` request of `sendTelegramAlert` (source lines 96-107). -/
def telegramRequest (env : EnvBindings) (text : String) : HttpRequest :=
  { url := "https://api.telegram.org/bot" ++ env.TELEGRAM_BOT_TOKEN ++ "/sendMessage",
    method := "POST",
    headers := [("Content-Type", "application/json")],
    body := RequestBody.jsonMessage env.TELEGRAM_CHAT_ID ("🚨 " ++ text) "HTML" }

/-- The `fetch` request of `sendTwilioSMS` (source lines 128-145).  The
platform `btoa` base64 step inside the `Authorization` value is kept
abstract as the identity on `sid:authToken` (no claim concerns it). -/
def twilioRequest (env : EnvBindings) (messageText : String) : HttpRequest :=
  { url := "https://api.twilio.com/2010-04-01/Accounts/" ++ env.TWILIO_ACCOUNT_SID
      ++ "/Messages.json",
    method := "POST",
    headers :=
      [("Authorization", "Basic " ++ env.TWILIO_ACCOUNT_SID ++ ":" ++ env.TWILIO_AUTH_TOKEN),
       ("Content-Type", "application/x-www-form-urlencoded")],
    body := RequestBody.form
      [("To", env.TWILIO_TO_NUMBER),
       ("MessagingServiceSid", env.TWILIO_MESSAGING_SERVICE_SID),
       ("Body", "🚨 " ++ messageText)] }

/-- The network oracle: an `Except.error` is a JavaScript exception thrown
by `fetch` (or the response-body read). -/
def FetchOracle : Type := HttpRequest → Except String HttpResponse

/-- `sendTelegramAlert` (source lines 90-118).  The guard returns early on
missing config; the `match` on the oracle's result is the `try`/`catch`:
a thrown transport error is caught and logged, never rethrown. -/
def sendTelegramAlert (env : EnvBindings) (text : String) (fetch_ : FetchOracle) :
    Except String SendOutcome :=
  if env.TELEGRAM_BOT_TOKEN = "" || env.TELEGRAM_CHAT_ID = "" then
    Except.ok SendOutcome.skippedConfig
  else
    match fetch_ (telegramRequest env text) with
    | Except.error e => Except.ok (SendOutcome.errored e)
    | Except.ok response =>
        if HttpResponse.ok response then Except.ok SendOutcome.sent
        else Except.ok (SendOutcome.failed (HttpResponse.body response))

/-- `sendTwilioSMS` (source lines 122-156); same shape as the Telegram
sender.  Note the guard checks `TWILIO_ACCOUNT_SID`, `TWILIO_AUTH_TOKEN`
and `TWILIO_TO_NUMBER` (not the messaging-service id). -/
def sendTwilioSMS (env : EnvBindings) (messageText : String) (fetch_ : FetchOracle) :
    Except String SendOutcome :=
  if env.TWILIO_ACCOUNT_SID = "" || env.TWILIO_AUTH_TOKEN = "" || env.TWILIO_TO_NUMBER = "" then
    Except.ok SendOutcome.skippedConfig
  else
    match fetch_ (twilioRequest env messageText) with
    | Except.error e => Except.ok (SendOutcome.errored e)
    | Except.ok response =>
        if HttpResponse.ok response then Except.ok SendOutcome.sent
        else Except.ok (SendOutcome.failed (HttpResponse.body response))

/-- One entry of `alertPromises`: run the sender the loop pushed for this
(channel, message) pair, tagging the result with the pair. -/
def runSend (env : EnvBindings) (fetch_ : FetchOracle) (cm : Channel × String) :
    Except String (Channel × String × SendOutcome) :=
  match cm.1 with
  | Channel.telegram =>
      (sendTelegramAlert env cm.2 fetch_).map fun o => (cm.1, cm.2, o)
  | Channel.twilioSMS =>
      (sendTwilioSMS env cm.2 fetch_).map fun o => (cm.1, cm.2, o)

/-- `Promise.all`: resolves with every result once all have settled, rejects
with the first rejection. -/
def promiseAll {α : Type} : List (Except String α) → Except String (List α)
  | [] => Except.ok []
  | Except.error e :: _ => Except.error e
  | Except.ok a :: rest =>
      match promiseAll rest with
      | Except.ok as => Except.ok (a :: as)
      | Except.error e => Except.error e

/-- Observable result of one `checkHealthFactors` run: the settled sends in
order, and the error logged by the top-level `catch` (if it fired). -/
structure PipelineLog where
  outcomes : List (Channel × String × SendOutcome)
  caught : Option String
deriving DecidableEq

/-- `checkHealthFactors` (source lines 32-86) with the position source made
explicit: in the source it is the hard-coded `const users = mockUsers`
inside the `try` block (see `checkHealthFactors` below), and the spec
treats any real data source as an external collaborator that may fail, so
it is passed here as an `Except` value.  The outer `match` arms mapping to
`Except.ok ⟨_, some e⟩` are the source's top-level `try`/`catch`: the
function itself always resolves. -/
def checkHealthFactorsWith (env : EnvBindings) (fetchUsers : Except String (List AaveUser))
    (fetch_ : FetchOracle) : Except String PipelineLog :=
  match fetchUsers with
  | Except.error e => Except.ok { outcomes := [], caught := some e }
  | Except.ok users =>
      match promiseAll ((dispatchSends users).map (runSend env fetch_)) with
      | Except.ok outcomes => Except.ok { outcomes := outcomes, caught := none }
      | Except.error e => Except.ok { outcomes := [], caught := some e }

/-- `checkHealthFactors` as the source runs it, over the mock list. -/
def checkHealthFactors (env : EnvBindings) (fetch_ : FetchOracle) : Except String PipelineLog :=
  checkHealthFactorsWith env (Except.ok mockUsers) fetch_

/-- The `GET /api/test` handler (source lines 14-18): await the pipeline,
then answer 200 with the fixed acknowledgement message. -/
def apiTestHandler (env : EnvBindings) (fetchUsers : Except String (List AaveUser))
    (fetch_ : FetchOracle) : Except String (ℕ × String) :=
  match checkHealthFactorsWith env fetchUsers fetch_ with
  | Except.ok _ => Except.ok (200, "Manual check completed. Check logs with `npm run tail`")
  | Except.error e => Except.error e

/-- The `GET /api/health` JSON payload (source lines 21-28); the
`timestamp` field is the wall clock and carries no logic, so it is not
modelled.  Note the `twilio` boolean tests the account sid, auth token and
messaging-service sid only. -/
structure HealthPayload where
  status : String
  telegram : Bool
  twilio : Bool
deriving DecidableEq

/-- The `GET /api/health` handler. -/
def healthHandler (env : EnvBindings) : HealthPayload :=
  { status := "healthy",
    telegram := !(env.TELEGRAM_BOT_TOKEN = "") && !(env.TELEGRAM_CHAT_ID = ""),
    twilio := !(env.TWILIO_ACCOUNT_SID = "") && !(env.TWILIO_AUTH_TOKEN = "")
      && !(env.TWILIO_MESSAGING_SERVICE_SID = "") }

/-- Modelled from the spec: the shortened-identifier form the spec claims
for alert text, "first six characters, an ellipsis, last six characters"
(`first6...last6`).  Stated from the spec's words, to be compared with the
source's `shortAddr`. -/
def specShortId (id : String) : String :=
  jsSubstringTo id 6 ++ "..." ++ String.mk (id.data.drop (id.data.length - 6))

/-- Modelled from the spec: HTML-escaping of message text, the "required
formatting" the spec claims the chat-bot channel applies.  Stated from the
spec's words, to be compared with the text the source actually sends. -/
def htmlEscape (s : String) : String :=
  String.mk (s.data.flatMap fun c =>
    if c = '&' then "&amp;".data
    else if c = '<' then "&lt;".data
    else if c = '>' then "&gt;".data
    else [c])

/-- The message-payload field of a request body: the `text` field of the
Telegram JSON, the `Body` field of the Twilio form. -/
def payloadText : RequestBody → Option String
  | RequestBody.jsonMessage _ t _ => some t
  | RequestBody.form fs => (fs.lookup "Body")

/-- `needle` occurs as a contiguous segment at the head of `hay`. -/
def leadsWith : List Char → List Char → Bool
  | [], _ => true
  | _ :: _, [] => false
  | a :: as, b :: bs => a = b && leadsWith as bs

/-- `needle` occurs as a contiguous segment somewhere in `hay`. -/
def hasSegment (needle : List Char) : List Char → Bool
  | [] => leadsWith needle []
  | c :: t => leadsWith needle (c :: t) || hasSegment needle t

/-- The first mock borrower (90% LTV). -/
def mockUser1 : AaveUser :=
  { id := "0x1234567890abcdef1234567890abcdef12345678",
    totalCollateralBase := "1000000",
    totalDebtBase := "900000" }

/-- The spec's end-to-end scenario B position: ratio exactly 85.00%. -/
def boundaryUser : AaveUser :=
  { id := "0xabcdef1234567890abcdef1234567890abcdef12",
    totalCollateralBase := "500000",
    totalDebtBase := "425000" }

/-- A position with negative collateral and debt (ratio 90). -/
def negUser : AaveUser :=
  { id := "0x1234567890abcdef1234567890abcdef12345678",
    totalCollateralBase := "-1000000",
    totalDebtBase := "-900000" }

/-- A position whose collateral parses to zero. -/
def zeroUser : AaveUser :=
  { id := "0x1234567890abcdef1234567890abcdef12345678",
    totalCollateralBase := "0",
    totalDebtBase := "900000" }

/-- A position with a non-numeric collateral string. -/
def nanUser : AaveUser :=
  { id := "0x1234567890abcdef1234567890abcdef12345678",
    totalCollateralBase := "abc",
    totalDebtBase := "100" }

/-- A fully configured environment. -/
def envFull : EnvBindings :=
  { TELEGRAM_BOT_TOKEN := "tg", TELEGRAM_CHAT_ID := "chat",
    TWILIO_ACCOUNT_SID := "sid", TWILIO_AUTH_TOKEN := "auth",
    TWILIO_MESSAGING_SERVICE_SID := "msid", TWILIO_TO_NUMBER := "+15551234567" }

/-- An environment with the Telegram token missing and Twilio complete. -/
def envNoToken : EnvBindings :=
  { TELEGRAM_BOT_TOKEN := "", TELEGRAM_CHAT_ID := "chat",
    TWILIO_ACCOUNT_SID := "sid", TWILIO_AUTH_TOKEN := "auth",
    TWILIO_MESSAGING_SERVICE_SID := "msid", TWILIO_TO_NUMBER := "+15551234567" }

/-- An environment where every key the health endpoint inspects is set but
the destination phone number is empty. -/
def envNoPhone : EnvBindings :=
  { TELEGRAM_BOT_TOKEN := "tg", TELEGRAM_CHAT_ID := "chat",
    TWILIO_ACCOUNT_SID := "sid", TWILIO_AUTH_TOKEN := "auth",
    TWILIO_MESSAGING_SERVICE_SID := "msid", TWILIO_TO_NUMBER := "" }

/-- An oracle whose provider always answers HTTP 200. -/
def oracleOk : FetchOracle := fun _ => Except.ok { status := 200, body := "ok" }

/-- An oracle simulating an HTTP 500 from the Telegram provider (the
`envFull` bot URL) while the SMS provider answers 200. -/
def oracle500 : FetchOracle := fun r =>
  if r.url = "https://api.telegram.org/bottg/sendMessage" then
    Except.ok { status := 500, body := "Internal Server Error" }
  else Except.ok { status := 200, body := "ok" }

/-! ## Evaluation lemmas for the concrete strings the claims use -/

theorem lex_1000000 : lexFloat ['1','0','0','0','0','0','0']
    = { ok := true, sign := 1, ipart := 1000000, fpart := 0, fplen := 0, expo := 0 } := by decide

theorem lex_900000 : lexFloat ['9','0','0','0','0','0']
    = { ok := true, sign := 1, ipart := 900000, fpart := 0, fplen := 0, expo := 0 } := by decide

theorem lex_500000 : lexFloat ['5','0','0','0','0','0']
    = { ok := true, sign := 1, ipart := 500000, fpart := 0, fplen := 0, expo := 0 } := by decide

theorem lex_425000 : lexFloat ['4','2','5','0','0','0']
    = { ok := true, sign := 1, ipart := 425000, fpart := 0, fplen := 0, expo := 0 } := by decide

theorem lex_neg1000000 : lexFloat ['-','1','0','0','0','0','0','0']
    = { ok := true, sign := -1, ipart := 1000000, fpart := 0, fplen := 0, expo := 0 } := by decide

theorem lex_neg900000 : lexFloat ['-','9','0','0','0','0','0']
    = { ok := true, sign := -1, ipart := 900000, fpart := 0, fplen := 0, expo := 0 } := by decide

theorem parse_1000000 : parseFloat "1000000" = JSNum.num 1000000 := by
  simp [parseFloat, lex_1000000, parsedVal]

theorem parse_900000 : parseFloat "900000" = JSNum.num 900000 := by
  simp [parseFloat, lex_900000, parsedVal]

theorem parse_500000 : parseFloat "500000" = JSNum.num 500000 := by
  simp [parseFloat, lex_500000, parsedVal]

theorem parse_425000 : parseFloat "425000" = JSNum.num 425000 := by
  simp [parseFloat, lex_425000, parsedVal]

theorem parse_neg1000000 : parseFloat "-1000000" = JSNum.num (-1000000) := by
  simp [parseFloat, lex_neg1000000, parsedVal]

theorem parse_neg900000 : parseFloat "-900000" = JSNum.num (-900000) := by
  simp [parseFloat, lex_neg900000, parsedVal]

theorem parse_zero : parseFloat "0" = JSNum.num 0 := by
  have h : lexFloat ['0']
      = { ok := true, sign := 1, ipart := 0, fpart := 0, fplen := 0, expo := 0 } := by decide
  simp [parseFloat, h, parsedVal]

theorem parse_abc : parseFloat "abc" = JSNum.nan := by decide

/-! ## Structural lemmas about the senders and the dispatcher -/

theorem jdiv_nan_right (x : JSNum) : jdiv x JSNum.nan = JSNum.nan := by
  cases x <;> rfl

theorem jdiv_nan_left (y : JSNum) : jdiv JSNum.nan y = JSNum.nan := by
  cases y <;> rfl

theorem sendTelegramAlert_resolves (env : EnvBindings) (t : String) (f : FetchOracle) :
    ∃ o, sendTelegramAlert env t f = Except.ok o := by
  unfold sendTelegramAlert
  split
  · exact ⟨_, rfl⟩
  · cases hf : f (telegramRequest env t) with
    | error e => exact ⟨_, rfl⟩
    | ok r => cases hr : HttpResponse.ok r <;> simp [hr]

theorem sendTwilioSMS_resolves (env : EnvBindings) (t : String) (f : FetchOracle) :
    ∃ o, sendTwilioSMS env t f = Except.ok o := by
  unfold sendTwilioSMS
  split
  · exact ⟨_, rfl⟩
  · cases hf : f (twilioRequest env t) with
    | error e => exact ⟨_, rfl⟩
    | ok r => cases hr : HttpResponse.ok r <;> simp [hr]

theorem runSend_resolves (env : EnvBindings) (f : FetchOracle) (cm : Channel × String) :
    ∃ o, runSend env f cm = Except.ok (cm.1, cm.2, o) := by
  cases cm with
  | mk c m =>
    cases c with
    | telegram =>
        obtain ⟨o, ho⟩ := sendTelegramAlert_resolves env m f
        exact ⟨o, by simp [runSend, ho, Except.map]⟩
    | twilioSMS =>
        obtain ⟨o, ho⟩ := sendTwilioSMS_resolves env m f
        exact ⟨o, by simp [runSend, ho, Except.map]⟩

theorem promiseAll_map_runSend (env : EnvBindings) (f : FetchOracle)
    (l : List (Channel × String)) :
    ∃ out, promiseAll (l.map (runSend env f)) = Except.ok out ∧
      out.map (fun x => (x.1, x.2.1)) = l ∧
      ∀ x ∈ out, runSend env f (x.1, x.2.1) = Except.ok x := by
  induction l with
  | nil => exact ⟨[], rfl, rfl, by simp⟩
  | cons cm rest ih =>
      obtain ⟨o, ho⟩ := runSend_resolves env f cm
      obtain ⟨out, h1, h2, h3⟩ := ih
      refine ⟨(cm.1, cm.2, o) :: out, ?_, ?_, ?_⟩
      · simp [promiseAll, ho, h1]
      · simp [h2]
      · intro x hx
        rcases List.mem_cons.mp hx with hx | hx
        · subst hx; exact ho
        · exact h3 x hx

/-! ## Concrete evaluations of the risk evaluator -/

theorem userLtv_mockUser1 : userLtv mockUser1 = some (JSNum.num 90) := by
  simp only [userLtv, mockUser1, parse_1000000, parse_900000]
  norm_num [isZero, jdiv, jmul100]

theorem userLtv_boundary : userLtv boundaryUser = some (JSNum.num 85) := by
  simp only [userLtv, boundaryUser, parse_500000, parse_425000]
  norm_num [isZero, jdiv, jmul100]

theorem userLtv_negUser : userLtv negUser = some (JSNum.num 90) := by
  simp only [userLtv, negUser, parse_neg1000000, parse_neg900000]
  norm_num [isZero, jdiv, jmul100]

theorem jgt_90 : jgt (JSNum.num 90) 85 = true := by norm_num [jgt]

theorem jgt_85 : jgt (JSNum.num 85) 85 = false := by norm_num [jgt]

theorem alerted_mockUser1 : alertedUsers [mockUser1] = [(mockUser1, JSNum.num 90)] := by
  simp [alertedUsers, userLtv_mockUser1, jgt_90]

theorem alerted_boundary : alertedUsers [boundaryUser] = [] := by
  simp [alertedUsers, userLtv_boundary, jgt_85]

theorem alerted_negUser : alertedUsers [negUser] = [(negUser, JSNum.num 90)] := by
  simp [alertedUsers, userLtv_negUser, jgt_90]

theorem toFixed2Rat_90 : toFixed2Rat 90 = "90.00" := by
  have h : fixedTwoUnits 90 = 9000 := by norm_num [fixedTwoUnits]
  simp only [toFixed2Rat, h]
  decide

theorem alertMsg_mockUser1 : alertMsg mockUser1 (JSNum.num 90)
    = "High LTV Alert! Wallet 0x1234...5678 is at 90.00% LTV." := by
  simp only [alertMsg, toFixedTwo, toFixed2Rat_90]
  decide

theorem dispatch_mockUser1 : dispatchSends [mockUser1]
    = [(Channel.telegram, "High LTV Alert! Wallet 0x1234...5678 is at 90.00% LTV."),
       (Channel.twilioSMS, "High LTV Alert! Wallet 0x1234...5678 is at 90.00% LTV.")] := by
  simp [dispatchSends, alerted_mockUser1, alertMsg_mockUser1]

/-! ## Claims -/

/-- C1: for every position whose parsed collateral is nonzero (so the
zero-collateral guard does not skip it), the loop produces an alert if and
only if the computed ratio `debt / collateral * 100` is strictly greater
than 85; the boundary position with collateral "500000" and debt "425000"
has ratio exactly 85.00 and produces no alert. -/
theorem c1_threshold_strict :
    (∀ u : AaveUser, isZero (parseFloat u.totalCollateralBase) = false →
      (alertedUsers [u] ≠ [] ↔
        jgt (jmul100 (jdiv (parseFloat u.totalDebtBase) (parseFloat u.totalCollateralBase))) 85
          = true))
    ∧ userLtv boundaryUser = some (JSNum.num 85)
    ∧ alertedUsers [boundaryUser] = [] := by
  refine ⟨?_, userLtv_boundary, alerted_boundary⟩
  intro u h
  cases hj : jgt (jmul100 (jdiv (parseFloat u.totalDebtBase) (parseFloat u.totalCollateralBase))) 85 <;>
    simp [alertedUsers, userLtv, h, hj]

/-- Witness for C1 at the first mock borrower (ratio 90, alert produced). -/
theorem c1_threshold_strict_witness :
    isZero (parseFloat mockUser1.totalCollateralBase) = false ∧
    (alertedUsers [mockUser1] ≠ [] ↔
      jgt (jmul100 (jdiv (parseFloat mockUser1.totalDebtBase)
        (parseFloat mockUser1.totalCollateralBase))) 85 = true) := by
  have h : isZero (parseFloat mockUser1.totalCollateralBase) = false := by
    simp [mockUser1, parse_1000000, isZero]
  exact ⟨h, c1_threshold_strict.1 mockUser1 h⟩

/-- C2: a position whose collateral string parses to exactly 0 is skipped
entirely: no ratio is computed, no alert is generated and nothing is
dispatched, whatever the debt string is. -/
theorem c2_zero_collateral_skip :
    ∀ u : AaveUser, parseFloat u.totalCollateralBase = JSNum.num 0 →
      userLtv u = none ∧ alertedUsers [u] = [] ∧ dispatchSends [u] = [] := by
  intro u h
  have hz : isZero (parseFloat u.totalCollateralBase) = true := by rw [h]; rfl
  have hl : userLtv u = none := by simp [userLtv, hz]
  have ha : alertedUsers [u] = [] := by simp [alertedUsers, hl]
  exact ⟨hl, ha, by simp [dispatchSends, ha]⟩

/-- Witness for C2 at a concrete zero-collateral position with large debt. -/
theorem c2_zero_collateral_skip_witness :
    parseFloat zeroUser.totalCollateralBase = JSNum.num 0 ∧
    userLtv zeroUser = none ∧ alertedUsers [zeroUser] = [] ∧ dispatchSends [zeroUser] = [] := by
  have h : parseFloat zeroUser.totalCollateralBase = JSNum.num 0 := by
    simpa [zeroUser] using parse_zero
  have := c2_zero_collateral_skip zeroUser h
  exact ⟨h, this.1, this.2.1, this.2.2⟩

/-- C10: the zero-collateral guard skips only an exact parsed zero; any
nonzero parsed collateral, a negative one included, flows into the ratio
computation and the threshold test, so the position with collateral
"-1000000" and debt "-900000" (ratio 90) is alerted and dispatched on both
channels even though both fields are negative. -/
theorem c10_negative_collateral_alerts :
    (∀ (u : AaveUser) (q : ℚ), parseFloat u.totalCollateralBase = JSNum.num q → q ≠ 0 →
      userLtv u = some (jmul100 (jdiv (parseFloat u.totalDebtBase) (JSNum.num q))) ∧
      (alertedUsers [u] ≠ [] ↔
        jgt (jmul100 (jdiv (parseFloat u.totalDebtBase) (JSNum.num q))) 85 = true))
    ∧ userLtv negUser = some (JSNum.num 90)
    ∧ alertedUsers [negUser] = [(negUser, JSNum.num 90)]
    ∧ dispatchSends [negUser] =
        [(Channel.telegram, alertMsg negUser (JSNum.num 90)),
         (Channel.twilioSMS, alertMsg negUser (JSNum.num 90))] := by
  refine ⟨?_, userLtv_negUser, alerted_negUser, by simp [dispatchSends, alerted_negUser]⟩
  intro u q h hq
  have hz : isZero (parseFloat u.totalCollateralBase) = false := by
    rw [h]; simp [isZero, hq]
  have hl : userLtv u = some (jmul100 (jdiv (parseFloat u.totalDebtBase) (JSNum.num q))) := by
    simp [userLtv, h, isZero, hq]
  refine ⟨hl, ?_⟩
  cases hj : jgt (jmul100 (jdiv (parseFloat u.totalDebtBase) (JSNum.num q))) 85 <;>
    simp [alertedUsers, hl, hj]

/-- Witness for C10 at the negative-collateral position. -/
theorem c10_negative_collateral_alerts_witness :
    parseFloat negUser.totalCollateralBase = JSNum.num (-1000000) ∧
    ((-1000000 : ℚ) ≠ 0) ∧
    userLtv negUser = some (jmul100 (jdiv (parseFloat negUser.totalDebtBase)
      (JSNum.num (-1000000)))) ∧
    (alertedUsers [negUser] ≠ [] ↔
      jgt (jmul100 (jdiv (parseFloat negUser.totalDebtBase) (JSNum.num (-1000000)))) 85
        = true) := by
  have h : parseFloat negUser.totalCollateralBase = JSNum.num (-1000000) := by
    simpa [negUser] using parse_neg1000000
  have hq : (-1000000 : ℚ) ≠ 0 := by norm_num
  have := c10_negative_collateral_alerts.1 negUser (-1000000) h hq
  exact ⟨h, hq, this.1, this.2⟩

/-- C7: a position with a non-numeric collateral or debt string parses to
`NaN`; the `NaN` ratio compares as not-greater-than the threshold, so the
position never alerts, nothing is dispatched for it, and the pipeline run
over it resolves without error. -/
theorem c7_nan_never_alerts :
    ∀ u : AaveUser,
      (parseFloat u.totalCollateralBase = JSNum.nan ∨ parseFloat u.totalDebtBase = JSNum.nan) →
      alertedUsers [u] = [] ∧ dispatchSends [u] = [] ∧
      (isZero (parseFloat u.totalCollateralBase) = false → userLtv u = some JSNum.nan) ∧
      jgt JSNum.nan 85 = false ∧
      (∀ (env : EnvBindings) (fetch_ : FetchOracle),
        checkHealthFactorsWith env (Except.ok [u]) fetch_
          = Except.ok { outcomes := [], caught := none }) := by
  intro u h
  have hl : isZero (parseFloat u.totalCollateralBase) = false → userLtv u = some JSNum.nan := by
    intro hz
    rcases h with h | h
    · simp [userLtv, h, isZero, jdiv_nan_right, jmul100]
    · simp [userLtv, hz, h, jdiv_nan_left, jmul100]
  have ha : alertedUsers [u] = [] := by
    cases hz : isZero (parseFloat u.totalCollateralBase) with
    | false => simp [alertedUsers, hl hz, jgt]
    | true => simp [alertedUsers, userLtv, hz]
  have hd : dispatchSends [u] = [] := by simp [dispatchSends, ha]
  refine ⟨ha, hd, hl, rfl, ?_⟩
  intro env fetch_
  simp [checkHealthFactorsWith, hd, promiseAll]

/-- Witness for C7 at a concrete position with non-numeric collateral. -/
theorem c7_nan_never_alerts_witness :
    parseFloat nanUser.totalCollateralBase = JSNum.nan ∧
    alertedUsers [nanUser] = [] ∧ dispatchSends [nanUser] = [] ∧
    checkHealthFactorsWith envFull (Except.ok [nanUser]) oracleOk
      = Except.ok { outcomes := [], caught := none } := by
  have h : parseFloat nanUser.totalCollateralBase = JSNum.nan := by
    simpa [nanUser] using parse_abc
  have := c7_nan_never_alerts nanUser (Or.inl h)
  exact ⟨h, this.1, this.2.1, this.2.2.2.2 envFull oracleOk⟩

/-- C3: for any user list and any network behavior, the dispatcher issues
exactly one send per (flagged position × channel) pair — Telegram then
Twilio for each flagged user, carrying that user's alert message — the
pipeline resolves only with every issued send settled (each recorded
outcome is exactly what that send alone produces against the oracle, so
one channel's failure, e.g. a simulated HTTP 500, never prevents another
send or fails the batch); concretely, with a 500-answering Telegram
provider the Telegram send settles as a logged failure while the Twilio
send still succeeds, and no error leaves the dispatcher. -/
theorem c3_dispatch_all_settle :
    (∀ (env : EnvBindings) (users : List AaveUser) (fetch_ : FetchOracle),
      dispatchSends users = (alertedUsers users).flatMap
        (fun p => [(Channel.telegram, alertMsg p.1 p.2), (Channel.twilioSMS, alertMsg p.1 p.2)]) ∧
      ∃ outcomes,
        checkHealthFactorsWith env (Except.ok users) fetch_
            = Except.ok { outcomes := outcomes, caught := none } ∧
        outcomes.map (fun x => (x.1, x.2.1)) = dispatchSends users ∧
        ∀ x ∈ outcomes, runSend env fetch_ (x.1, x.2.1) = Except.ok x)
    ∧ (∀ text : String,
        sendTelegramAlert envFull text oracle500
          = Except.ok (SendOutcome.failed "Internal Server Error") ∧
        sendTwilioSMS envFull text oracle500 = Except.ok SendOutcome.sent) := by
  constructor
  · intro env users fetch_
    obtain ⟨out, h1, h2, h3⟩ := promiseAll_map_runSend env fetch_ (dispatchSends users)
    exact ⟨rfl, out, by simp [checkHealthFactorsWith, h1], h2, h3⟩
  · intro text
    constructor
    · simp [sendTelegramAlert, envFull, oracle500, telegramRequest, HttpResponse.ok]
    · simp [sendTwilioSMS, envFull, oracle500, twilioRequest, HttpResponse.ok]

/-- C4: both channel senders always resolve, never throw or reject: a
missing required key makes the sender skip (warn) without affecting the
other channel, a non-2xx response is recorded as a failure carrying the
response body but still resolves, a successful response resolves as sent,
and a transport exception is caught and recorded, never rethrown. -/
theorem c4_senders_contain_errors :
    ∀ (env : EnvBindings) (text : String) (f : FetchOracle),
      (∃ o, sendTelegramAlert env text f = Except.ok o) ∧
      (∃ o, sendTwilioSMS env text f = Except.ok o) ∧
      ((env.TELEGRAM_BOT_TOKEN = "" ∨ env.TELEGRAM_CHAT_ID = "") →
        sendTelegramAlert env text f = Except.ok SendOutcome.skippedConfig) ∧
      ((env.TWILIO_ACCOUNT_SID = "" ∨ env.TWILIO_AUTH_TOKEN = "" ∨ env.TWILIO_TO_NUMBER = "") →
        sendTwilioSMS env text f = Except.ok SendOutcome.skippedConfig) ∧
      (∀ r : HttpResponse, env.TELEGRAM_BOT_TOKEN ≠ "" → env.TELEGRAM_CHAT_ID ≠ "" →
        f (telegramRequest env text) = Except.ok r →
        sendTelegramAlert env text f
          = Except.ok (if HttpResponse.ok r then SendOutcome.sent
              else SendOutcome.failed (HttpResponse.body r))) ∧
      (∀ e : String, env.TELEGRAM_BOT_TOKEN ≠ "" → env.TELEGRAM_CHAT_ID ≠ "" →
        f (telegramRequest env text) = Except.error e →
        sendTelegramAlert env text f = Except.ok (SendOutcome.errored e)) ∧
      (∀ r : HttpResponse, env.TWILIO_ACCOUNT_SID ≠ "" → env.TWILIO_AUTH_TOKEN ≠ "" →
        env.TWILIO_TO_NUMBER ≠ "" →
        f (twilioRequest env text) = Except.ok r →
        sendTwilioSMS env text f
          = Except.ok (if HttpResponse.ok r then SendOutcome.sent
              else SendOutcome.failed (HttpResponse.body r))) ∧
      (∀ e : String, env.TWILIO_ACCOUNT_SID ≠ "" → env.TWILIO_AUTH_TOKEN ≠ "" →
        env.TWILIO_TO_NUMBER ≠ "" →
        f (twilioRequest env text) = Except.error e →
        sendTwilioSMS env text f = Except.ok (SendOutcome.errored e)) := by
  intro env text f
  refine ⟨sendTelegramAlert_resolves env text f, sendTwilioSMS_resolves env text f,
    ?_, ?_, ?_, ?_, ?_, ?_⟩
  · intro h
    rcases h with h | h <;> simp [sendTelegramAlert, h]
  · intro h
    rcases h with h | h | h <;> simp [sendTwilioSMS, h]
  · intro r h1 h2 hf
    cases hr : HttpResponse.ok r <;> simp [sendTelegramAlert, h1, h2, hf, hr]
  · intro e h1 h2 hf
    simp [sendTelegramAlert, h1, h2, hf]
  · intro r h1 h2 h3 hf
    cases hr : HttpResponse.ok r <;> simp [sendTwilioSMS, h1, h2, h3, hf, hr]
  · intro e h1 h2 h3 hf
    simp [sendTwilioSMS, h1, h2, h3, hf]

/-- Witness for C4: with the Telegram token missing and Twilio configured,
the Telegram sender skips while the Twilio sender still sends. -/
theorem c4_senders_contain_errors_witness :
    sendTelegramAlert envNoToken "hello" oracleOk = Except.ok SendOutcome.skippedConfig ∧
    sendTwilioSMS envNoToken "hello" oracleOk = Except.ok SendOutcome.sent := by
  have h := c4_senders_contain_errors envNoToken "hello" oracleOk
  refine ⟨h.2.2.1 (Or.inl rfl), ?_⟩
  have hs := h.2.2.2.2.2.2.1 { status := 200, body := "ok" }
    (by simp [envNoToken]) (by simp [envNoToken]) (by simp [envNoToken]) rfl
  simpa [HttpResponse.ok] using hs

/-- C8: the pipeline always resolves — any failure of the position source
is caught by the top-level `try`/`catch` and recorded as a log entry, never
propagated — so the manual-trigger endpoint always answers 200 with its
fixed acknowledgement, whatever the position source and the network do. -/
theorem c8_trigger_always_ok :
    ∀ (env : EnvBindings) (fetchUsers : Except String (List AaveUser)) (fetch_ : FetchOracle),
      (∃ log, checkHealthFactorsWith env fetchUsers fetch_ = Except.ok log) ∧
      (∀ e : String, fetchUsers = Except.error e →
        checkHealthFactorsWith env fetchUsers fetch_
          = Except.ok { outcomes := [], caught := some e }) ∧
      apiTestHandler env fetchUsers fetch_
        = Except.ok (200, "Manual check completed. Check logs with `npm run tail`") := by
  intro env fetchUsers fetch_
  cases fetchUsers with
  | error e =>
      refine ⟨⟨{ outcomes := [], caught := some e }, rfl⟩, ?_, rfl⟩
      intro e' he
      cases he
      rfl
  | ok users =>
      obtain ⟨out, h1, _, _⟩ := promiseAll_map_runSend env fetch_ (dispatchSends users)
      have hc : checkHealthFactorsWith env (Except.ok users) fetch_
          = Except.ok { outcomes := out, caught := none } := by
        simp [checkHealthFactorsWith, h1]
      refine ⟨⟨_, hc⟩, ?_, ?_⟩
      · intro e' he
        cases he
      · simp [apiTestHandler, hc]

/-- Witness for C8 with a failing position source: the failure is caught
and logged and the endpoint still acknowledges with 200. -/
theorem c8_trigger_always_ok_witness :
    checkHealthFactorsWith envFull (Except.error "subgraph down") oracleOk
      = Except.ok { outcomes := [], caught := some "subgraph down" } ∧
    apiTestHandler envFull (Except.error "subgraph down") oracleOk
      = Except.ok (200, "Manual check completed. Check logs with `npm run tail`") := by
  have h := c8_trigger_always_ok envFull (Except.error "subgraph down") oracleOk
  exact ⟨h.2.1 "subgraph down" rfl, h.2.2⟩

/-- Counterexample to C5: in an environment where the account sid, auth
token and messaging-service sid are set but the destination phone number is
empty, the health payload reports the SMS channel as configured even though
a key the SMS sender requires is empty — the sender itself skips. -/
theorem c5_health_counterexample :
    HealthPayload.twilio (healthHandler envNoPhone) = true ∧
    envNoPhone.TWILIO_TO_NUMBER = "" ∧
    sendTwilioSMS envNoPhone "test" oracleOk = Except.ok SendOutcome.skippedConfig := by
  refine ⟨by decide, rfl, by simp [sendTwilioSMS, envNoPhone]⟩

/-- C5 as amended: the health booleans are presence checks over the keys the
endpoint actually reads — Telegram: bot token and chat id; SMS: account sid,
auth token and messaging-service sid, the destination phone number being
not consulted even though an empty phone number makes the SMS sender skip. -/
theorem c5_health_amended :
    (∀ env : EnvBindings,
      (HealthPayload.telegram (healthHandler env) = true ↔
        (env.TELEGRAM_BOT_TOKEN ≠ "" ∧ env.TELEGRAM_CHAT_ID ≠ "")) ∧
      (HealthPayload.twilio (healthHandler env) = true ↔
        (env.TWILIO_ACCOUNT_SID ≠ "" ∧ env.TWILIO_AUTH_TOKEN ≠ "" ∧
          env.TWILIO_MESSAGING_SERVICE_SID ≠ ""))) ∧
    (∀ (env : EnvBindings) (t : String) (f : FetchOracle), env.TWILIO_TO_NUMBER = "" →
      sendTwilioSMS env t f = Except.ok SendOutcome.skippedConfig) := by
  constructor
  · intro env
    constructor <;> simp [healthHandler, and_assoc]
  · intro env t f h
    simp [sendTwilioSMS, h]

/-- Witness for C5 as amended, at the empty-phone-number environment. -/
theorem c5_health_amended_witness :
    sendTwilioSMS envNoPhone "ping" oracleOk = Except.ok SendOutcome.skippedConfig := by
  exact c5_health_amended.2 envNoPhone "ping" oracleOk rfl

/-- Counterexample to C6: the first mock borrower (42-character identifier)
is alerted with ratio 90, and its alert text carries
`substring(0,6) + "..." + substring(38)` — first six characters, ellipsis,
last FOUR characters — not the claimed `first6...last6` form, which does
not occur in the text at all (though "90.00%" does). -/
theorem c6_shortid_counterexample :
    userLtv mockUser1 = some (JSNum.num 90) ∧
    alertedUsers [mockUser1] = [(mockUser1, JSNum.num 90)] ∧
    alertMsg mockUser1 (JSNum.num 90)
      = "High LTV Alert! Wallet 0x1234...5678 is at 90.00% LTV." ∧
    specShortId mockUser1.id = "0x1234...345678" ∧
    hasSegment (specShortId mockUser1.id).data (alertMsg mockUser1 (JSNum.num 90)).data
      = false ∧
    hasSegment ("90.00%".data) (alertMsg mockUser1 (JSNum.num 90)).data = true := by
  refine ⟨userLtv_mockUser1, alerted_mockUser1, alertMsg_mockUser1, by decide, ?_, ?_⟩
  · rw [alertMsg_mockUser1]; decide
  · rw [alertMsg_mockUser1]; decide

/-- C6 as amended: every dispatched alert text combines the shortened
identifier `substring(0,6) + "..." + substring(38)` (first six characters,
ellipsis, the tail from index 38 — the last four of a standard 42-character
address) with the ratio rendered to two decimal places; for collateral
"1000000" and debt "900000" the text contains "90.00%". -/
theorem c6_alert_text_amended :
    (∀ (us : List AaveUser) (c : Channel) (m : String), (c, m) ∈ dispatchSends us →
      ∃ p, p ∈ alertedUsers us ∧
        m = "High LTV Alert! Wallet " ++ jsSubstringTo p.1.id 6 ++ "..."
            ++ jsSubstringFrom p.1.id 38 ++ " is at " ++ toFixedTwo p.2 ++ "% LTV.") ∧
    userLtv mockUser1 = some (JSNum.num 90) ∧
    hasSegment ("90.00%".data) (alertMsg mockUser1 (JSNum.num 90)).data = true := by
  refine ⟨?_, userLtv_mockUser1, by rw [alertMsg_mockUser1]; decide⟩
  intro us c m hm
  simp only [dispatchSends, List.mem_flatMap] at hm
  obtain ⟨p, hp, hcm⟩ := hm
  refine ⟨p, hp, ?_⟩
  simp only [List.mem_cons, List.not_mem_nil, or_false, Prod.mk.injEq] at hcm
  rcases hcm with ⟨-, hcm⟩ | ⟨-, hcm⟩ <;>
    · subst hcm
      simp [alertMsg, shortAddr, String.append_assoc]

/-- Witness for C6 as amended, at the Telegram send of the first mock
borrower. -/
theorem c6_alert_text_amended_witness :
    (Channel.telegram, "High LTV Alert! Wallet 0x1234...5678 is at 90.00% LTV.")
      ∈ dispatchSends [mockUser1] ∧
    ∃ p, p ∈ alertedUsers [mockUser1] ∧
      "High LTV Alert! Wallet 0x1234...5678 is at 90.00% LTV."
        = "High LTV Alert! Wallet " ++ jsSubstringTo p.1.id 6 ++ "..."
            ++ jsSubstringFrom p.1.id 38 ++ " is at " ++ toFixedTwo p.2 ++ "% LTV." := by
  have hm : (Channel.telegram, "High LTV Alert! Wallet 0x1234...5678 is at 90.00% LTV.")
      ∈ dispatchSends [mockUser1] := by rw [dispatch_mockUser1]; simp
  exact ⟨hm, c6_alert_text_amended.1 [mockUser1] Channel.telegram _ hm⟩

/-- Counterexample to C9: the chat-bot channel sets `parse_mode: "HTML"` but
applies no HTML-escaping — for a message containing markup characters the
JSON `text` field carries the raw text, not its HTML-escaped form. -/
theorem c9_escape_counterexample :
    payloadText (telegramRequest envFull "<b>hi</b>").body = some ("🚨 <b>hi</b>") ∧
    htmlEscape "<b>hi</b>" = "&lt;b&gt;hi&lt;/b&gt;" ∧
    payloadText (telegramRequest envFull "<b>hi</b>").body
      ≠ some ("🚨 " ++ htmlEscape "<b>hi</b>") := by
  refine ⟨rfl, by decide, by decide⟩

/-- C9 as amended: the same message string, prefixed with the alert marker,
is carried verbatim as the payload body on both channels; the chat-bot JSON
body carries `parse_mode: "HTML"` but neither channel escapes or otherwise
transforms the text. -/
theorem c9_payload_amended :
    ∀ (env : EnvBindings) (m : String),
      payloadText (telegramRequest env m).body = some ("🚨 " ++ m) ∧
      payloadText (twilioRequest env m).body = some ("🚨 " ++ m) ∧
      (telegramRequest env m).body
        = RequestBody.jsonMessage env.TELEGRAM_CHAT_ID ("🚨 " ++ m) "HTML" := by
  intro env m
  exact ⟨rfl, rfl, rfl⟩
